import Mathlib

/-!
Shallow embedding of the WitB Google OAuth token lifecycle manager
(src/server/services/google-auth.ts, both revisions contained in that file)
together with the in-memory token store (MemStorage in src/server/storage.ts)
and the disconnect route handler (src/server/routes.ts).

Modelling conventions:
* JavaScript `null`/`undefined` string values are `Option String` with `none`;
  JS string truthiness (empty string falsy) is `strTruthy`.
* Timestamps are milliseconds since epoch as `Int`; a `Date` value that may be
  null is `Option Int`.  JS number truthiness (0 falsy) is `intTruthy`.
* The wall clock is passed explicitly as `now`; each operation runs at a fixed
  instant.
* Network interactions (the provider token endpoint, the revoke endpoint) are
  passed in as explicit outcome values, so an operation that never consults
  them is provably independent of them.
* The mutable store is threaded explicitly: operations return the new store
  together with an `Except String` result mirroring resolve/reject.
-/

namespace WitB

/-- JS truthiness of a nullable string: `null`/`undefined` and `""` are falsy. -/
def strTruthy : Option String → Bool
  | some s => s ≠ ""
  | none => false

/-- JS truthiness of a nullable number: `null`/`undefined` and `0` are falsy. -/
def intTruthy : Option Int → Bool
  | some n => n ≠ 0
  | none => false

/-- Substring test, used for the `error.message.includes(...)` checks. -/
def containsSubstr (s pat : String) : Bool :=
  (s.splitOn pat).length > 1

/-- A row of the `google_tokens` table / an entry of `MemStorage.googleTokens`
(src/shared/schema.ts).  `accessToken` is nullable in the model because the
second revision of the service can write an absent value through. -/
structure GoogleTokens where
  id : Nat
  userId : String
  accessToken : Option String
  refreshToken : Option String
  expiryDate : Option Int
  scopes : Option (List String)
  createdAt : Int
  updatedAt : Int
deriving Repr, DecidableEq

/-- Insert payload (`InsertGoogleTokens` in src/shared/schema.ts). -/
structure InsertGoogleTokens where
  userId : String
  accessToken : Option String
  refreshToken : Option String
  expiryDate : Option Int
  scopes : Option (List String)
deriving Repr, DecidableEq

/-- Update payload as built at the call sites of `storage.updateGoogleTokens`
(all of them supply these four fields, possibly with null values). -/
structure GoogleTokensUpdate where
  accessToken : Option String
  refreshToken : Option String
  expiryDate : Option Int
  scopes : Option (List String)
deriving Repr, DecidableEq

/-- Payload of `storage.refreshGoogleTokens` (`{ accessToken; expiryDate? }`). -/
structure RefreshedTokens where
  accessToken : Option String
  expiryDate : Option Int
deriving Repr, DecidableEq

/-- The in-memory store: the entries of the `googleTokens` Map in insertion
order, plus a counter supplying fresh ids (modelling `randomUUID`). -/
structure MemStore where
  recs : List GoogleTokens
  nextId : Nat
deriving Repr, DecidableEq

namespace Storage

/-- MemStorage.getGoogleTokens: first entry whose `userId` matches. -/
def getGoogleTokens (st : MemStore) (userId : String) : Option GoogleTokens :=
  st.recs.find? (fun t => t.userId == userId)

/-- MemStorage.saveGoogleTokens: unconditionally inserts a new entry under a
fresh id (`refreshToken || null` collapses falsy values to null). -/
def saveGoogleTokens (now : Int) (st : MemStore) (ins : InsertGoogleTokens) :
    MemStore × GoogleTokens :=
  let t : GoogleTokens :=
    { id := st.nextId
      userId := ins.userId
      accessToken := ins.accessToken
      refreshToken := if strTruthy ins.refreshToken then ins.refreshToken else none
      expiryDate := ins.expiryDate
      scopes := ins.scopes
      createdAt := now
      updatedAt := now }
  ({ recs := st.recs ++ [t], nextId := st.nextId + 1 }, t)

/-- MemStorage.updateGoogleTokens: merge the updates into the existing entry
(if any) and store it back under the same id. -/
def updateGoogleTokens (now : Int) (st : MemStore) (userId : String)
    (upd : GoogleTokensUpdate) : MemStore × Option GoogleTokens :=
  match getGoogleTokens st userId with
  | none => (st, none)
  | some ex =>
    let updated : GoogleTokens :=
      { ex with
        accessToken := upd.accessToken
        refreshToken := upd.refreshToken
        expiryDate := upd.expiryDate
        scopes := upd.scopes
        updatedAt := now }
    ({ st with recs := st.recs.map (fun t => if t.id == ex.id then updated else t) },
     some updated)

/-- MemStorage.deleteGoogleTokens: remove the user's entry if present. -/
def deleteGoogleTokens (st : MemStore) (userId : String) : MemStore × Bool :=
  match getGoogleTokens st userId with
  | none => (st, false)
  | some ex =>
    ({ st with recs := st.recs.eraseP (fun t => t.id == ex.id) }, true)

/-- MemStorage.refreshGoogleTokens: overwrite only `accessToken` and
`expiryDate` (`newTokens.expiryDate || null`) of the existing entry. -/
def refreshGoogleTokens (now : Int) (st : MemStore) (userId : String)
    (newTokens : RefreshedTokens) : MemStore × Option GoogleTokens :=
  match getGoogleTokens st userId with
  | none => (st, none)
  | some ex =>
    let updated : GoogleTokens :=
      { ex with
        accessToken := newTokens.accessToken
        expiryDate := newTokens.expiryDate
        updatedAt := now }
    ({ st with recs := st.recs.map (fun t => if t.id == ex.id then updated else t) },
     some updated)

end Storage

/-- Raw token-exchange response from the provider (`tokens` in the service). -/
structure TokenResponse where
  access_token : Option String
  refresh_token : Option String
  expiry_date : Option Int
  scope : Option String
deriving Repr, DecidableEq

/-- Response of `client.getAccessToken()`: `token` plus the HTTP body fields
the service may read (`res?.data.expires_in`); a body may also carry a new
refresh token, which the service never reads. -/
structure AccessTokenResponse where
  token : Option String
  expires_in : Option Int
  refresh_token : Option String
deriving Repr, DecidableEq

/-- Value resolved by `refreshUserGoogleTokens`. -/
structure RefreshResult where
  access_token : Option String
  expiry_date : Option Int
deriving Repr, DecidableEq

/-- Credentials set on the returned OAuth2 client. -/
structure Credentials where
  access_token : Option String
  refresh_token : Option String
  expiry_date : Option Int
deriving Repr, DecidableEq

/-- First revision of `saveUserGoogleTokens` (google-auth.ts lines 126-167):
validates the access token, parses scopes (collapsing an empty result to
null), then updates in place if an entry exists, else inserts. -/
def saveUserGoogleTokens (now : Int) (st : MemStore) (userId : String)
    (tokens : TokenResponse) : MemStore × Except String Unit :=
  if ¬ strTruthy tokens.access_token then
    (st, .error "Access token is required")
  else
    let scopes : Option (List String) :=
      if strTruthy tokens.scope then
        let scopeList := ((tokens.scope.getD "").splitOn " ").filter
          (fun s => s.trim.length > 0)
        if scopeList.length > 0 then some scopeList else none
      else none
    match Storage.getGoogleTokens st userId with
    | some _ =>
      let updateData : GoogleTokensUpdate :=
        { accessToken := tokens.access_token
          refreshToken := if strTruthy tokens.refresh_token then tokens.refresh_token else none
          expiryDate := if intTruthy tokens.expiry_date then tokens.expiry_date else none
          scopes := scopes }
      ((Storage.updateGoogleTokens now st userId updateData).1, .ok ())
    | none =>
      let insertData : InsertGoogleTokens :=
        { userId := userId
          accessToken := tokens.access_token
          refreshToken := if strTruthy tokens.refresh_token then tokens.refresh_token else none
          expiryDate := if intTruthy tokens.expiry_date then tokens.expiry_date else none
          scopes := scopes }
      ((Storage.saveGoogleTokens now st insertData).1, .ok ())

/-- Second revision of `saveUserGoogleTokens` (google-auth.ts lines 406-434):
no access-token validation; an empty scope list is kept as an empty list. -/
def saveUserGoogleTokens_v2 (now : Int) (st : MemStore) (userId : String)
    (tokens : TokenResponse) : MemStore × Except String Unit :=
  let scopesArray : Option (List String) :=
    if strTruthy tokens.scope then
      some (((tokens.scope.getD "").splitOn " ").filter (fun s => s.length > 0))
    else none
  match Storage.getGoogleTokens st userId with
  | some _ =>
    let updateData : GoogleTokensUpdate :=
      { accessToken := tokens.access_token
        refreshToken := if strTruthy tokens.refresh_token then tokens.refresh_token else none
        expiryDate := if intTruthy tokens.expiry_date then tokens.expiry_date else none
        scopes := scopesArray }
    ((Storage.updateGoogleTokens now st userId updateData).1, .ok ())
  | none =>
    let insertData : InsertGoogleTokens :=
      { userId := userId
        accessToken := tokens.access_token
        refreshToken := if strTruthy tokens.refresh_token then tokens.refresh_token else none
        expiryDate := if intTruthy tokens.expiry_date then tokens.expiry_date else none
        scopes := scopesArray }
    ((Storage.saveGoogleTokens now st insertData).1, .ok ())

/-- First revision of `refreshUserGoogleTokens` (google-auth.ts lines
169-240).  `resp` is the outcome of `client.getAccessToken()`. -/
def refreshUserGoogleTokens (now : Int) (resp : Except String AccessTokenResponse)
    (st : MemStore) (userId : String) : MemStore × Except String RefreshResult :=
  match Storage.getGoogleTokens st userId with
  | none => (st, .error "No refresh token available for user")
  | some storedTokens =>
    if ¬ strTruthy storedTokens.refreshToken then
      (st, .error "No refresh token available for user")
    else
      match resp with
      | .error e =>
        if containsSubstr e "invalid_grant" ||
            containsSubstr e "Token has been expired or revoked" then
          (st, .error "Refresh token has been revoked. User must re-authenticate.")
        else
          (st, .error ("Token refresh request failed: " ++ e))
      | .ok tokenResponse =>
        if ¬ strTruthy tokenResponse.token then
          (st, .error "Google returned empty access token")
        else
          let expiryDate : Int :=
            match tokenResponse.expires_in with
            | some s => if s > 0 then now + s * 1000 else now + 60 * 60 * 1000
            | none => now + 60 * 60 * 1000
          if expiryDate ≤ now then
            (st, .error "Received token with past expiry date")
          else
            match Storage.refreshGoogleTokens now st userId
                { accessToken := tokenResponse.token, expiryDate := some expiryDate } with
            | (st2, some _) =>
              (st2, .ok { access_token := tokenResponse.token
                          expiry_date := some expiryDate })
            | (st2, none) => (st2, .error "Failed to store refreshed tokens")

/-- Second revision of `refreshUserGoogleTokens` (google-auth.ts lines
436-466): no access-token check, no expiry default, store result unchecked. -/
def refreshUserGoogleTokens_v2 (now : Int) (resp : Except String AccessTokenResponse)
    (st : MemStore) (userId : String) : MemStore × Except String RefreshResult :=
  match Storage.getGoogleTokens st userId with
  | none => (st, .error "No refresh token available")
  | some storedTokens =>
    if ¬ strTruthy storedTokens.refreshToken then
      (st, .error "No refresh token available")
    else
      match resp with
      | .error e => (st, .error e)
      | .ok tokenResponse =>
        let expiryDate : Option Int :=
          match tokenResponse.expires_in with
          | some s => if s ≠ 0 then some (now + s * 1000) else none
          | none => none
        let st2 := (Storage.refreshGoogleTokens now st userId
          { accessToken := tokenResponse.token, expiryDate := expiryDate }).1
        (st2, .ok { access_token := tokenResponse.token, expiry_date := expiryDate })

/-- First revision of `getValidGoogleClient` (google-auth.ts lines 242-299):
a credential with absent or near-threshold expiry is refreshed; failures of
the refresh path are wrapped. -/
def getValidGoogleClient (now : Int) (resp : Except String AccessTokenResponse)
    (st : MemStore) (userId : String) : MemStore × Except String Credentials :=
  match Storage.getGoogleTokens st userId with
  | none => (st, .error "No Google tokens found for user")
  | some storedTokens =>
    let expiryThreshold := now + 5 * 60 * 1000
    let shouldRefresh : Bool :=
      match storedTokens.expiryDate with
      | none => true
      | some e => decide (e ≤ expiryThreshold)
    if shouldRefresh then
      if ¬ strTruthy storedTokens.refreshToken then
        (st, .error "Token expired and no refresh token available. User must re-authenticate.")
      else
        match refreshUserGoogleTokens now resp st userId with
        | (st2, .error e) =>
          (st2, .error ("Failed to refresh expired Google tokens: " ++ e))
        | (st2, .ok _) =>
          match Storage.getGoogleTokens st2 userId with
          | none =>
            (st2, .error
              "Failed to refresh expired Google tokens: Failed to retrieve valid tokens after refresh")
          | some updatedTokens =>
            if ¬ strTruthy updatedTokens.accessToken then
              (st2, .error
                "Failed to refresh expired Google tokens: Failed to retrieve valid tokens after refresh")
            else
              match updatedTokens.expiryDate with
              | some e =>
                if e ≤ now then
                  (st2, .error
                    "Failed to refresh expired Google tokens: Received expired token from refresh")
                else
                  (st2, .ok { access_token := updatedTokens.accessToken
                              refresh_token := updatedTokens.refreshToken
                              expiry_date := updatedTokens.expiryDate })
              | none =>
                (st2, .ok { access_token := updatedTokens.accessToken
                            refresh_token := updatedTokens.refreshToken
                            expiry_date := updatedTokens.expiryDate })
    else
      (st, .ok { access_token := storedTokens.accessToken
                 refresh_token := storedTokens.refreshToken
                 expiry_date := storedTokens.expiryDate })

/-- Second revision of `getValidGoogleClient` (google-auth.ts lines 468-506):
the stale test is `expiryDate && expiryDate <= threshold`, so an absent
expiry is NOT treated as stale; after a refresh the client may be returned
with no credentials set at all (modelled by `none`). -/
def getValidGoogleClient_v2 (now : Int) (resp : Except String AccessTokenResponse)
    (st : MemStore) (userId : String) : MemStore × Except String (Option Credentials) :=
  match Storage.getGoogleTokens st userId with
  | none => (st, .error "No Google tokens found for user")
  | some storedTokens =>
    let expiryThreshold := now + 5 * 60 * 1000
    let isStale : Bool :=
      match storedTokens.expiryDate with
      | none => false
      | some e => decide (e ≤ expiryThreshold)
    if isStale then
      if strTruthy storedTokens.refreshToken then
        match refreshUserGoogleTokens_v2 now resp st userId with
        | (st2, .error e) => (st2, .error e)
        | (st2, .ok _) =>
          match Storage.getGoogleTokens st2 userId with
          | some updatedTokens =>
            (st2, .ok (some { access_token := updatedTokens.accessToken
                              refresh_token := updatedTokens.refreshToken
                              expiry_date := updatedTokens.expiryDate }))
          | none => (st2, .ok none)
      else
        (st, .error "Token expired and no refresh token available")
    else
      (st, .ok (some { access_token := storedTokens.accessToken
                       refresh_token := storedTokens.refreshToken
                       expiry_date := storedTokens.expiryDate }))

/-- `revokeGoogleTokens` (identical in both revisions, google-auth.ts lines
302-330 and 509-537).  `revokeOutcome tok` is the outcome of
`client.revokeToken(tok)`.  The outer catch logs and swallows every error. -/
def revokeGoogleTokens (st : MemStore) (userId : String)
    (revokeOutcome : String → Except String Unit) : Except String Unit :=
  match Storage.getGoogleTokens st userId with
  | none => .ok ()
  | some storedTokens =>
    let firstAttempt : Except String Unit :=
      if strTruthy storedTokens.refreshToken then
        revokeOutcome (storedTokens.refreshToken.getD "")
      else
        revokeOutcome (storedTokens.accessToken.getD "")
    let inner : Except String Unit :=
      match firstAttempt with
      | .ok _ => .ok ()
      | .error _ => revokeOutcome (storedTokens.accessToken.getD "")
    match inner with
    | .ok _ => .ok ()
    | .error _ => .ok ()

/-- The `DELETE /api/auth/google/disconnect` handler (routes.ts lines
299-315): revoke remotely, then delete the local record; an exception from
the revoke step would skip the deletion. -/
def disconnectGoogleHandler (st : MemStore) (userId : String)
    (revokeOutcome : String → Except String Unit) : MemStore × Except String Bool :=
  match revokeGoogleTokens st userId revokeOutcome with
  | .error e => (st, .error e)
  | .ok _ =>
    let (st2, success) := Storage.deleteGoogleTokens st userId
    (st2, .ok success)

end WitB

namespace WitB

/-! Concrete fixtures used by the divergence theorems. -/

/-- A stored credential with an absent expiry timestamp and a refresh token. -/
def credAbsentExpiry : GoogleTokens :=
  { id := 0, userId := "u1", accessToken := some "A1", refreshToken := some "R1",
    expiryDate := none, scopes := none, createdAt := 0, updatedAt := 0 }

/-- Store holding only `credAbsentExpiry`. -/
def stAbsentExpiry : MemStore := { recs := [credAbsentExpiry], nextId := 1 }

/-- A stored credential with a present (stale) expiry and a refresh token. -/
def credStale : GoogleTokens :=
  { id := 0, userId := "u1", accessToken := some "A1", refreshToken := some "R1",
    expiryDate := some 1000, scopes := none, createdAt := 0, updatedAt := 0 }

/-- Store holding only `credStale`. -/
def stStale : MemStore := { recs := [credStale], nextId := 1 }

/-- A stored credential with no refresh token and an absent expiry. -/
def credNoRefreshToken : GoogleTokens :=
  { id := 0, userId := "u1", accessToken := some "A1", refreshToken := none,
    expiryDate := none, scopes := none, createdAt := 0, updatedAt := 0 }

/-- Store holding only `credNoRefreshToken`. -/
def stNoRefreshToken : MemStore := { recs := [credNoRefreshToken], nextId := 1 }

/-- The empty store. -/
def stEmpty : MemStore := { recs := [], nextId := 0 }

/-- A refresh-endpoint response carrying a fresh access token and duration. -/
def respFresh : AccessTokenResponse :=
  { token := some "A2", expires_in := some 3600, refresh_token := none }

/-- A refresh-endpoint response with no access token. -/
def respNoToken : AccessTokenResponse :=
  { token := none, expires_in := some 3600, refresh_token := none }

/-- A refresh-endpoint response with an access token but no expiry duration. -/
def respNoExpiry : AccessTokenResponse :=
  { token := some "A2", expires_in := none, refresh_token := none }

/-- A refresh-endpoint response that also carries a new refresh token. -/
def respNewRefreshToken : AccessTokenResponse :=
  { token := some "A2", expires_in := some 3600, refresh_token := some "R2" }

/-- A token-exchange response lacking the access token. -/
def toksNoAccess : TokenResponse :=
  { access_token := none, refresh_token := some "R1", expiry_date := some 999,
    scope := none }

/-- C1: the first revision of `getValidGoogleClient` treats an absent expiry as
maximally stale and refreshes, but the second revision's stale test
(`expiryDate && expiryDate <= threshold`) is false for an absent expiry, so
the second revision takes the use-stored-values-directly path for every
provider response.  The claim therefore fails on the second revision: the
spec's intended behaviour ("absence is treated as unknown, assume expired")
is implemented only by the first revision. -/
theorem getValid_absentExpiry_divergence :
    getValidGoogleClient 0 (.ok respFresh) stAbsentExpiry "u1" =
      ({ recs := [{ credAbsentExpiry with
                      accessToken := some "A2",
                      expiryDate := some 3600000 }], nextId := 1 },
       .ok { access_token := some "A2", refresh_token := some "R1",
             expiry_date := some 3600000 }) ∧
    ∀ resp, getValidGoogleClient_v2 0 resp stAbsentExpiry "u1" =
      (stAbsentExpiry,
       .ok (some { access_token := some "A1", refresh_token := some "R1",
                   expiry_date := none })) :=
  ⟨rfl, fun _ => rfl⟩

/-- C2: on a refresh response with no access token, the first revision of
`refreshUserGoogleTokens` rejects with the empty-access-token error and
leaves the store untouched, but the second revision signals no error and
overwrites the stored access token with the absent value (prior token
`"A1"` is destroyed). -/
theorem refresh_missingAccessToken_divergence :
    refreshUserGoogleTokens 0 (.ok respNoToken) stStale "u1" =
      (stStale, .error "Google returned empty access token") ∧
    (refreshUserGoogleTokens_v2 0 (.ok respNoToken) stStale "u1").2 =
      .ok { access_token := none, expiry_date := some 3600000 } ∧
    (Storage.getGoogleTokens
        (refreshUserGoogleTokens_v2 0 (.ok respNoToken) stStale "u1").1 "u1").map
      (fun t => t.accessToken) = some none :=
  ⟨rfl, rfl, rfl⟩

/-- C4: on a refresh response omitting `expires_in`, the first revision of
`refreshUserGoogleTokens` persists the conservative default expiry
`now + 1 hour` (here `0 + 3600000`), while the second revision persists a
null expiry instead (neither the default nor the old value `1000`). -/
theorem refresh_defaultExpiry_divergence :
    refreshUserGoogleTokens 0 (.ok respNoExpiry) stStale "u1" =
      ({ recs := [{ credStale with
                      accessToken := some "A2",
                      expiryDate := some 3600000 }], nextId := 1 },
       .ok { access_token := some "A2", expiry_date := some 3600000 }) ∧
    (Storage.getGoogleTokens
        (refreshUserGoogleTokens_v2 0 (.ok respNoExpiry) stStale "u1").1 "u1").map
      (fun t => t.expiryDate) = some none :=
  ⟨rfl, rfl⟩

/-- C6: for a stored credential with no refresh token and an absent expiry,
the first revision of `getValidGoogleClient` signals the
refresh-unavailable error without consulting the provider (the result is
the same for every provider response) and leaves the store unchanged; the
second revision instead returns the stored stale credential successfully. -/
theorem getValid_noRefreshToken_divergence :
    (∀ resp, getValidGoogleClient 0 resp stNoRefreshToken "u1" =
      (stNoRefreshToken,
       .error "Token expired and no refresh token available. User must re-authenticate.")) ∧
    (∀ resp, getValidGoogleClient_v2 0 resp stNoRefreshToken "u1" =
      (stNoRefreshToken,
       .ok (some { access_token := some "A1", refresh_token := none,
                   expiry_date := none }))) :=
  ⟨fun _ => rfl, fun _ => rfl⟩

/-- C8: on a token-exchange response lacking `access_token`, the first
revision of `saveUserGoogleTokens` signals the invalid-token error and
performs no store mutation, while the second revision inserts a credential
record whose access token is absent. -/
theorem save_missingAccessToken_divergence :
    saveUserGoogleTokens 0 stEmpty "u1" toksNoAccess =
      (stEmpty, .error "Access token is required") ∧
    saveUserGoogleTokens_v2 0 stEmpty "u1" toksNoAccess =
      ({ recs := [{ id := 0, userId := "u1", accessToken := none,
                    refreshToken := some "R1", expiryDate := some 999,
                    scopes := none, createdAt := 0, updatedAt := 0 }],
         nextId := 1 }, .ok ()) :=
  ⟨rfl, rfl⟩

/-- C7: `revokeGoogleTokens` returns normally for every store, user and
outcome of the provider's revoke calls (the outer catch swallows every
failure), and consequently the disconnect handler always reaches the local
deletion step. -/
theorem revoke_never_propagates (st : MemStore) (u : String)
    (revokeOutcome : String → Except String Unit) :
    revokeGoogleTokens st u revokeOutcome = .ok () ∧
    disconnectGoogleHandler st u revokeOutcome =
      ((Storage.deleteGoogleTokens st u).1, .ok (Storage.deleteGoogleTokens st u).2) := by
  have h1 : revokeGoogleTokens st u revokeOutcome = .ok () := by
    unfold revokeGoogleTokens
    split
    · rfl
    · rename_i ex heq
      split
      · cases hfa : revokeOutcome (ex.refreshToken.getD "") with
        | ok v => simp [hfa]
        | error e =>
          cases hfb : revokeOutcome (ex.accessToken.getD "") <;> simp [hfa, hfb]
      · cases hfa : revokeOutcome (ex.accessToken.getD "") <;> simp [hfa]
  refine ⟨h1, ?_⟩
  unfold disconnectGoogleHandler
  rw [h1]

end WitB

namespace WitB

/-- Replacing the entry found for user `u` by an entry with the same user id
(the Map `set existing.id` pattern of MemStorage) makes the lookup for `u`
return the replacement. -/
theorem find?_replaceById (recs : List GoogleTokens) (ex upd : GoogleTokens) (u : String)
    (hfind : recs.find? (fun t => t.userId == u) = some ex)
    (hu : upd.userId = ex.userId) :
    (recs.map (fun t => if t.id == ex.id then upd else t)).find?
      (fun t => t.userId == u) = some upd := by
  induction recs with
  | nil => simp at hfind
  | cons t ts ih =>
    by_cases h : (t.userId == u) = true
    · rw [List.find?_cons_of_pos (p := fun s : GoogleTokens => s.userId == u) _ h] at hfind
      have hex : t = ex := by injection hfind
      have h1 : (upd.userId == u) = true := by rw [hu, ← hex]; exact h
      have hid : (t.id == ex.id) = true := by rw [hex]; simp
      have hmap : ((t :: ts).map (fun s => if s.id == ex.id then upd else s))
          = upd :: ts.map (fun s => if s.id == ex.id then upd else s) := by
        simp only [List.map_cons, if_pos hid]
      rw [hmap]
      exact List.find?_cons_of_pos _ h1
    · rw [List.find?_cons_of_neg (p := fun s : GoogleTokens => s.userId == u) _ h] at hfind
      have hpex : (ex.userId == u) = true := by simpa using List.find?_some hfind
      by_cases hid : (t.id == ex.id) = true
      · have hmap : ((t :: ts).map (fun s => if s.id == ex.id then upd else s))
            = upd :: ts.map (fun s => if s.id == ex.id then upd else s) := by
          simp only [List.map_cons, if_pos hid]
        rw [hmap]
        apply List.find?_cons_of_pos
        show (upd.userId == u) = true
        rw [hu]; exact hpex
      · have hmap : ((t :: ts).map (fun s => if s.id == ex.id then upd else s))
            = t :: ts.map (fun s => if s.id == ex.id then upd else s) := by
          simp only [List.map_cons, if_neg hid]
        rw [hmap,
          List.find?_cons_of_neg (p := fun s : GoogleTokens => s.userId == u) _ h]
        exact ih hfind
  
/-- After `updateGoogleTokens`, the lookup for the user returns the merged
record. -/
theorem getGoogleTokens_after_update (now : Int) (st : MemStore) (u : String)
    (upd : GoogleTokensUpdate) (ex : GoogleTokens)
    (hfind : Storage.getGoogleTokens st u = some ex) :
    Storage.getGoogleTokens (Storage.updateGoogleTokens now st u upd).1 u =
      some { ex with
              accessToken := upd.accessToken
              refreshToken := upd.refreshToken
              expiryDate := upd.expiryDate
              scopes := upd.scopes
              updatedAt := now } := by
  unfold Storage.updateGoogleTokens
  rw [hfind]
  exact find?_replaceById st.recs ex _ u hfind rfl

/-- After the storage-layer `refreshGoogleTokens`, the lookup for the user
returns the record with only access token and expiry overwritten. -/
theorem getGoogleTokens_after_refresh (now : Int) (st : MemStore) (u : String)
    (newTokens : RefreshedTokens) (ex : GoogleTokens)
    (hfind : Storage.getGoogleTokens st u = some ex) :
    Storage.getGoogleTokens (Storage.refreshGoogleTokens now st u newTokens).1 u =
      some { ex with
              accessToken := newTokens.accessToken
              expiryDate := newTokens.expiryDate
              updatedAt := now } := by
  unfold Storage.refreshGoogleTokens
  rw [hfind]
  exact find?_replaceById st.recs ex _ u hfind rfl

end WitB

namespace WitB

/-- C3 counterexample: a successful refresh whose provider response includes a
new refresh token `"R2"` still leaves the stored refresh token at the prior
value `"R1"` — the refresh flow never writes the refresh-token field, so the
claim's second disjunct ("equals the provider-supplied refresh token when
the response includes one") is false on the code. -/
theorem refresh_newRefreshToken_not_stored :
    (refreshUserGoogleTokens 0 (.ok respNewRefreshToken) stStale "u1").2 =
      .ok { access_token := some "A2", expiry_date := some 3600000 } ∧
    respNewRefreshToken.refresh_token = some "R2" ∧
    (Storage.getGoogleTokens
        (refreshUserGoogleTokens 0 (.ok respNewRefreshToken) stStale "u1").1 "u1").map
      (fun t => t.refreshToken) = some (some "R1") ∧
    (some "R1" : Option String) ≠ some "R2" :=
  ⟨rfl, rfl, rfl, by decide⟩

/-- The storage-layer refresh write never changes the refresh token seen by a
subsequent lookup for the same user. -/
theorem refreshStore_preserves_refreshToken (now : Int) (st : MemStore)
    (u : String) (newTokens : RefreshedTokens) :
    (Storage.getGoogleTokens (Storage.refreshGoogleTokens now st u newTokens).1 u).map
      (fun t => t.refreshToken) =
    (Storage.getGoogleTokens st u).map (fun t => t.refreshToken) := by
  cases hfind : Storage.getGoogleTokens st u with
  | none =>
    have hst : (Storage.refreshGoogleTokens now st u newTokens).1 = st := by
      unfold Storage.refreshGoogleTokens
      rw [hfind]
    rw [hst, hfind]
  | some ex =>
    rw [getGoogleTokens_after_refresh now st u newTokens ex hfind]
    rfl

/-- Packaging of `refreshStore_preserves_refreshToken` through an equation on
the returned pair. -/
theorem refreshGoogleTokens_fst_preserves (now : Int) (st : MemStore)
    (u : String) (newTokens : RefreshedTokens) (st3 : MemStore)
    (res : Option GoogleTokens)
    (heq : Storage.refreshGoogleTokens now st u newTokens = (st3, res)) :
    (Storage.getGoogleTokens st3 u).map (fun t => t.refreshToken) =
      (Storage.getGoogleTokens st u).map (fun t => t.refreshToken) := by
  have hx := refreshStore_preserves_refreshToken now st u newTokens
  rw [heq] at hx
  exact hx

/-- C3 (amended): after every successful `refreshUserGoogleTokens` the stored
refresh token equals the stored refresh token before the operation, whether
or not the provider's response carried a new refresh token. -/
theorem refresh_preserves_storedRefreshToken (now : Int)
    (resp : Except String AccessTokenResponse) (st : MemStore) (u : String)
    (st2 : MemStore) (r : RefreshResult)
    (h : refreshUserGoogleTokens now resp st u = (st2, .ok r)) :
    (Storage.getGoogleTokens st2 u).map (fun t => t.refreshToken) =
      (Storage.getGoogleTokens st u).map (fun t => t.refreshToken) := by
  unfold refreshUserGoogleTokens at h
  repeat' (first | split at h | simp only [] at h)
  all_goals simp at h
  all_goals
    (rename_i st3 val heq
     obtain ⟨hA, hB⟩ := h
     subst hA
     exact refreshGoogleTokens_fst_preserves now st u _ _ _ heq)

end WitB

namespace WitB

/-- C5: for a stored credential whose expiry lies strictly beyond the
five-minute staleness threshold, both revisions of `getValidGoogleClient`
return the stored credential values unchanged, leave the store untouched,
and never consult the provider (the result is the same for every `resp`,
including a provider failure). -/
theorem getValid_fresh_uses_stored (now : Int)
    (resp : Except String AccessTokenResponse) (st : MemStore) (u : String)
    (t : GoogleTokens) (e : Int)
    (hfind : Storage.getGoogleTokens st u = some t)
    (hexp : t.expiryDate = some e)
    (hfresh : now + 5 * 60 * 1000 < e) :
    getValidGoogleClient now resp st u =
      (st, .ok { access_token := t.accessToken, refresh_token := t.refreshToken,
                 expiry_date := t.expiryDate }) ∧
    getValidGoogleClient_v2 now resp st u =
      (st, .ok (some { access_token := t.accessToken,
                       refresh_token := t.refreshToken,
                       expiry_date := t.expiryDate })) := by
  have hd : (decide (e ≤ now + 5 * 60 * 1000)) = false := by
    simp only [decide_eq_false_iff_not]
    omega
  constructor
  · unfold getValidGoogleClient
    rw [hfind]
    simp [hexp, hd]
    intro hc
    exact absurd hc (by omega)
  · unfold getValidGoogleClient_v2
    rw [hfind]
    simp [hexp, hd]
    intro hc
    exact absurd hc (by omega)

/-- C10: re-saving over an existing credential with a token response that
carries an access token but no refresh token overwrites the stored refresh
token with null, in both revisions of `saveUserGoogleTokens`. -/
theorem resave_without_refreshToken_clears_it (now : Int) (st : MemStore)
    (u : String) (prior : GoogleTokens) (toks : TokenResponse)
    (hfind : Storage.getGoogleTokens st u = some prior)
    (hprior : prior.refreshToken ≠ none)
    (hacc : strTruthy toks.access_token = true)
    (hrt : toks.refresh_token = none) :
    (Storage.getGoogleTokens (saveUserGoogleTokens now st u toks).1 u).map
      (fun t => t.refreshToken) = some none ∧
    (Storage.getGoogleTokens (saveUserGoogleTokens_v2 now st u toks).1 u).map
      (fun t => t.refreshToken) = some none := by
  constructor
  · unfold saveUserGoogleTokens
    rw [hfind]
    simp only [hacc, not_true, if_false]
    rw [getGoogleTokens_after_update now st u _ prior hfind]
    simp [hrt, strTruthy]
  · unfold saveUserGoogleTokens_v2
    rw [hfind]
    simp only []
    rw [getGoogleTokens_after_update now st u _ prior hfind]
    simp [hrt, strTruthy]

end WitB

namespace WitB

/-- Store state after the successful refresh of `stStale` with `respNewRefreshToken`. -/
def stStaleRefreshed : MemStore :=
  { recs := [{ credStale with
                accessToken := some "A2",
                expiryDate := some 3600000 }], nextId := 1 }

/-- Witness for the amended C3 theorem at a concrete successful refresh. -/
theorem refresh_preserves_storedRefreshToken_witness :
    refreshUserGoogleTokens 0 (.ok respNewRefreshToken) stStale "u1" =
      (stStaleRefreshed,
       .ok { access_token := some "A2", expiry_date := some 3600000 }) ∧
    (Storage.getGoogleTokens stStaleRefreshed "u1").map (fun t => t.refreshToken) =
      (Storage.getGoogleTokens stStale "u1").map (fun t => t.refreshToken) :=
  ⟨rfl,
   refresh_preserves_storedRefreshToken 0 (.ok respNewRefreshToken) stStale "u1"
     stStaleRefreshed { access_token := some "A2", expiry_date := some 3600000 } rfl⟩

/-- A stored credential far from expiry. -/
def credFresh : GoogleTokens :=
  { id := 0, userId := "u1", accessToken := some "A1", refreshToken := some "R1",
    expiryDate := some 10000000, scopes := none, createdAt := 0, updatedAt := 0 }

/-- Store holding only `credFresh`. -/
def stFresh : MemStore := { recs := [credFresh], nextId := 1 }

/-- Witness for the C5 theorem at a concrete fresh credential, against an
unreachable provider. -/
theorem getValid_fresh_uses_stored_witness :
    Storage.getGoogleTokens stFresh "u1" = some credFresh ∧
    credFresh.expiryDate = some 10000000 ∧
    ((0 : Int) + 5 * 60 * 1000 < 10000000) ∧
    (getValidGoogleClient 0 (.error "provider unreachable") stFresh "u1" =
      (stFresh, .ok { access_token := credFresh.accessToken,
                      refresh_token := credFresh.refreshToken,
                      expiry_date := credFresh.expiryDate }) ∧
     getValidGoogleClient_v2 0 (.error "provider unreachable") stFresh "u1" =
      (stFresh, .ok (some { access_token := credFresh.accessToken,
                            refresh_token := credFresh.refreshToken,
                            expiry_date := credFresh.expiryDate }))) :=
  ⟨rfl, rfl, by decide,
   getValid_fresh_uses_stored 0 (.error "provider unreachable") stFresh "u1"
     credFresh 10000000 rfl rfl (by decide)⟩

/-- A re-authorization token response with an access token but no refresh
token. -/
def toksResave : TokenResponse :=
  { access_token := some "A3", refresh_token := none, expiry_date := none,
    scope := none }

/-- Witness for the C10 theorem at a concrete re-save over `credStale`. -/
theorem resave_without_refreshToken_clears_it_witness :
    Storage.getGoogleTokens stStale "u1" = some credStale ∧
    credStale.refreshToken ≠ none ∧
    strTruthy toksResave.access_token = true ∧
    toksResave.refresh_token = none ∧
    ((Storage.getGoogleTokens (saveUserGoogleTokens 0 stStale "u1" toksResave).1 "u1").map
        (fun t => t.refreshToken) = some none ∧
     (Storage.getGoogleTokens (saveUserGoogleTokens_v2 0 stStale "u1" toksResave).1 "u1").map
        (fun t => t.refreshToken) = some none) :=
  ⟨rfl, by decide, by decide, rfl,
   resave_without_refreshToken_clears_it 0 stStale "u1" credStale toksResave
     rfl (by decide) (by decide) rfl⟩

end WitB

namespace WitB

/-- Well-formedness of the modelled Map: the entry ids are distinct (Map keys
are unique) and lie below the fresh-id counter. -/
abbrev MemStore.WF (st : MemStore) : Prop :=
  (st.recs.map (fun t => t.id)).Nodup ∧ ∀ t ∈ st.recs, t.id < st.nextId

/-- The spec invariant under scrutiny: at most one StoredCredential exists per
user. -/
abbrev AtMostOnePerUser (st : MemStore) : Prop :=
  (st.recs.map (fun t => t.userId)).Nodup

/-- Replacing the entry with id `ex.id` by an entry agreeing with `ex` on the
projection `f` leaves the projected list unchanged, given distinct ids. -/
theorem map_replaceById {α : Type} (recs : List GoogleTokens)
    (ex upd : GoogleTokens) (f : GoogleTokens → α) (hmem : ex ∈ recs)
    (hnodup : (recs.map (fun t => t.id)).Nodup) (hf : f upd = f ex) :
    (recs.map (fun t => if t.id == ex.id then upd else t)).map f = recs.map f := by
  rw [List.map_map]
  apply List.map_congr_left
  intro t ht
  simp only [Function.comp_apply]
  by_cases h : (t.id == ex.id) = true
  · have hteq : t = ex :=
      List.inj_on_of_nodup_map hnodup ht hmem (by simpa using h)
    rw [if_pos h, hf, hteq]
  · rw [if_neg h]

/-- The in-place replacement performed by updateGoogleTokens and
refreshGoogleTokens preserves well-formedness and the per-user uniqueness
invariant. -/
theorem replaceStore_preserves (st : MemStore) (ex updated : GoogleTokens)
    (hmem : ex ∈ st.recs) (hid : updated.id = ex.id)
    (huser : updated.userId = ex.userId)
    (hwf : st.WF) (hone : AtMostOnePerUser st) :
    MemStore.WF
      { st with recs := st.recs.map (fun t => if t.id == ex.id then updated else t) } ∧
    AtMostOnePerUser
      { st with recs := st.recs.map (fun t => if t.id == ex.id then updated else t) } := by
  refine ⟨⟨?_, ?_⟩, ?_⟩
  · rw [map_replaceById st.recs ex updated (fun t => t.id) hmem hwf.1 hid]
    exact hwf.1
  · intro t ht
    obtain ⟨s, hs, rfl⟩ := List.mem_map.mp ht
    by_cases h : (s.id == ex.id) = true
    · have h1 := hwf.2 ex hmem
      simp only [if_pos h]
      omega
    · simp only [if_neg h]
      exact hwf.2 s hs
  · show ((st.recs.map (fun t => if (t.id == ex.id) = true then updated else t)).map
      (fun t => t.userId)).Nodup
    rw [map_replaceById st.recs ex updated (fun t => t.userId) hmem hwf.1 huser]
    exact hone

end WitB

namespace WitB

/-- `Storage.updateGoogleTokens` preserves well-formedness and per-user
uniqueness. -/
theorem updateGoogleTokens_preserves_inv (now : Int) (st : MemStore)
    (u : String) (upd : GoogleTokensUpdate)
    (hwf : st.WF) (hone : AtMostOnePerUser st) :
    ((Storage.updateGoogleTokens now st u upd).1).WF ∧
      AtMostOnePerUser (Storage.updateGoogleTokens now st u upd).1 := by
  unfold Storage.updateGoogleTokens
  split
  · exact ⟨hwf, hone⟩
  · rename_i ex hfind
    exact replaceStore_preserves st ex _ (List.mem_of_find?_eq_some hfind)
      rfl rfl hwf hone

/-- `Storage.refreshGoogleTokens` preserves well-formedness and per-user
uniqueness, phrased through an equation on the returned pair. -/
theorem refreshGoogleTokens_preserves_inv (now : Int) (st : MemStore)
    (u : String) (newTokens : RefreshedTokens) (st2 : MemStore)
    (res : Option GoogleTokens)
    (heq : Storage.refreshGoogleTokens now st u newTokens = (st2, res))
    (hwf : st.WF) (hone : AtMostOnePerUser st) :
    st2.WF ∧ AtMostOnePerUser st2 := by
  have hx : ((Storage.refreshGoogleTokens now st u newTokens).1).WF ∧
      AtMostOnePerUser (Storage.refreshGoogleTokens now st u newTokens).1 := by
    unfold Storage.refreshGoogleTokens
    split
    · exact ⟨hwf, hone⟩
    · rename_i ex hfind
      exact replaceStore_preserves st ex _ (List.mem_of_find?_eq_some hfind)
        rfl rfl hwf hone
  rw [heq] at hx
  exact hx

/-- `Storage.saveGoogleTokens` preserves well-formedness, and per-user
uniqueness provided no entry for the inserted user exists yet. -/
theorem saveGoogleTokens_preserves_inv (now : Int) (st : MemStore)
    (ins : InsertGoogleTokens) (hwf : st.WF) (hone : AtMostOnePerUser st)
    (hnone : Storage.getGoogleTokens st ins.userId = none) :
    ((Storage.saveGoogleTokens now st ins).1).WF ∧
      AtMostOnePerUser (Storage.saveGoogleTokens now st ins).1 := by
  have hnone2 : ∀ s ∈ st.recs, ¬ (s.userId == ins.userId) = true := by
    intro s hs
    exact List.find?_eq_none.mp hnone s hs
  unfold Storage.saveGoogleTokens
  simp only []
  refine ⟨⟨?_, ?_⟩, ?_⟩
  · rw [List.map_append, List.nodup_append]
    refine ⟨hwf.1, List.nodup_singleton _, ?_⟩
    intro a ha hb
    simp only [List.map_cons, List.map_nil, List.mem_singleton] at hb
    subst hb
    obtain ⟨s, hs, hsid⟩ := List.mem_map.mp ha
    have := hwf.2 s hs
    omega
  · intro t ht
    rcases List.mem_append.mp ht with h1 | h1
    · exact Nat.lt_succ_of_lt (hwf.2 t h1)
    · simp only [List.mem_singleton] at h1
      subst h1
      exact Nat.lt_succ_self st.nextId
  · show ((st.recs ++ [_]).map (fun t : GoogleTokens => t.userId)).Nodup
    rw [List.map_append, List.nodup_append]
    refine ⟨hone, List.nodup_singleton _, ?_⟩
    intro a ha hb
    simp only [List.map_cons, List.map_nil, List.mem_singleton] at hb
    subst hb
    obtain ⟨s, hs, hsid⟩ := List.mem_map.mp ha
    exact hnone2 s hs (by simp [hsid])

/-- `Storage.deleteGoogleTokens` preserves well-formedness and per-user
uniqueness. -/
theorem deleteGoogleTokens_preserves_inv (st : MemStore) (u : String)
    (hwf : st.WF) (hone : AtMostOnePerUser st) :
    ((Storage.deleteGoogleTokens st u).1).WF ∧
      AtMostOnePerUser (Storage.deleteGoogleTokens st u).1 := by
  unfold Storage.deleteGoogleTokens
  split
  · exact ⟨hwf, hone⟩
  · rename_i ex hfind
    have hsub : (st.recs.eraseP (fun t => t.id == ex.id)).Sublist st.recs :=
      List.eraseP_sublist _
    refine ⟨⟨?_, ?_⟩, ?_⟩
    · exact List.Nodup.sublist (hsub.map (fun t => t.id)) hwf.1
    · intro t ht
      exact hwf.2 t (hsub.subset ht)
    · exact List.Nodup.sublist (hsub.map (fun t => t.userId)) hone

end WitB

namespace WitB

/-- First-revision `saveUserGoogleTokens` preserves well-formedness and
per-user uniqueness (the upsert inserts only when no entry exists). -/
theorem saveUserGoogleTokens_preserves (now : Int) (st : MemStore) (u : String)
    (toks : TokenResponse) (hwf : st.WF) (hone : AtMostOnePerUser st) :
    ((saveUserGoogleTokens now st u toks).1).WF ∧
      AtMostOnePerUser (saveUserGoogleTokens now st u toks).1 := by
  unfold saveUserGoogleTokens
  repeat' (first | split | simp only [])
  all_goals
    first
    | exact ⟨hwf, hone⟩
    | exact updateGoogleTokens_preserves_inv now st u _ hwf hone
    | exact saveGoogleTokens_preserves_inv now st _ hwf hone (by assumption)

/-- Second-revision `saveUserGoogleTokens` preserves well-formedness and
per-user uniqueness. -/
theorem saveUserGoogleTokens_v2_preserves (now : Int) (st : MemStore)
    (u : String) (toks : TokenResponse)
    (hwf : st.WF) (hone : AtMostOnePerUser st) :
    ((saveUserGoogleTokens_v2 now st u toks).1).WF ∧
      AtMostOnePerUser (saveUserGoogleTokens_v2 now st u toks).1 := by
  unfold saveUserGoogleTokens_v2
  repeat' (first | split | simp only [])
  all_goals
    first
    | exact ⟨hwf, hone⟩
    | exact updateGoogleTokens_preserves_inv now st u _ hwf hone
    | exact saveGoogleTokens_preserves_inv now st _ hwf hone (by assumption)

/-- First-revision `refreshUserGoogleTokens` preserves well-formedness and
per-user uniqueness (it only ever updates the existing entry in place). -/
theorem refreshUserGoogleTokens_preserves (now : Int)
    (resp : Except String AccessTokenResponse) (st : MemStore) (u : String)
    (hwf : st.WF) (hone : AtMostOnePerUser st) :
    ((refreshUserGoogleTokens now resp st u).1).WF ∧
      AtMostOnePerUser (refreshUserGoogleTokens now resp st u).1 := by
  unfold refreshUserGoogleTokens
  repeat' (first | split | simp only [])
  all_goals
    first
    | exact ⟨hwf, hone⟩
    | (rename_i heq
       exact refreshGoogleTokens_preserves_inv now st u _ _ _ heq hwf hone)

/-- Second-revision `refreshUserGoogleTokens` preserves well-formedness and
per-user uniqueness. -/
theorem refreshUserGoogleTokens_v2_preserves (now : Int)
    (resp : Except String AccessTokenResponse) (st : MemStore) (u : String)
    (hwf : st.WF) (hone : AtMostOnePerUser st) :
    ((refreshUserGoogleTokens_v2 now resp st u).1).WF ∧
      AtMostOnePerUser (refreshUserGoogleTokens_v2 now resp st u).1 := by
  unfold refreshUserGoogleTokens_v2
  repeat' (first | split | simp only [])
  all_goals
    first
    | exact ⟨hwf, hone⟩
    | exact refreshGoogleTokens_preserves_inv now st u _ _ _ rfl hwf hone

/-- First-revision `getValidGoogleClient` preserves well-formedness and
per-user uniqueness (its only store effect is the inner refresh). -/
theorem getValidGoogleClient_preserves (now : Int)
    (resp : Except String AccessTokenResponse) (st : MemStore) (u : String)
    (hwf : st.WF) (hone : AtMostOnePerUser st) :
    ((getValidGoogleClient now resp st u).1).WF ∧
      AtMostOnePerUser (getValidGoogleClient now resp st u).1 := by
  have hr := refreshUserGoogleTokens_preserves now resp st u hwf hone
  rcases hcall : refreshUserGoogleTokens now resp st u with ⟨st2, res⟩
  rw [hcall] at hr
  unfold getValidGoogleClient
  rw [hcall]
  rcases res with e | r
  all_goals simp only []
  all_goals repeat' (first | split | simp only [])
  all_goals
    first
    | exact ⟨hwf, hone⟩
    | exact hr

/-- Second-revision `getValidGoogleClient` preserves well-formedness and
per-user uniqueness. -/
theorem getValidGoogleClient_v2_preserves (now : Int)
    (resp : Except String AccessTokenResponse) (st : MemStore) (u : String)
    (hwf : st.WF) (hone : AtMostOnePerUser st) :
    ((getValidGoogleClient_v2 now resp st u).1).WF ∧
      AtMostOnePerUser (getValidGoogleClient_v2 now resp st u).1 := by
  have hr := refreshUserGoogleTokens_v2_preserves now resp st u hwf hone
  rcases hcall : refreshUserGoogleTokens_v2 now resp st u with ⟨st2, res⟩
  rw [hcall] at hr
  unfold getValidGoogleClient_v2
  rw [hcall]
  rcases res with e | r
  all_goals simp only []
  all_goals repeat' (first | split | simp only [])
  all_goals
    first
    | exact ⟨hwf, hone⟩
    | exact hr

end WitB

namespace WitB

/-- One sequential operation of the token lifecycle manager for some user,
bundled with the inputs it receives (clock instant, provider response,
revoke outcomes).  Both revisions of each service function are included. -/
inductive ManagerOp where
  | save (userId : String) (now : Int) (toks : TokenResponse)
  | saveV2 (userId : String) (now : Int) (toks : TokenResponse)
  | refresh (userId : String) (now : Int) (resp : Except String AccessTokenResponse)
  | refreshV2 (userId : String) (now : Int) (resp : Except String AccessTokenResponse)
  | getValid (userId : String) (now : Int) (resp : Except String AccessTokenResponse)
  | getValidV2 (userId : String) (now : Int) (resp : Except String AccessTokenResponse)
  | revoke (userId : String) (revokeOutcome : String → Except String Unit)
  | delete (userId : String)

/-- Effect of one manager operation on the store.  `revokeGoogleTokens`
performs no store write (its type in this embedding shows it never touches
the store); the disconnect route deletes via `Storage.deleteGoogleTokens`. -/
def applyOp (st : MemStore) : ManagerOp → MemStore
  | .save u now toks => (saveUserGoogleTokens now st u toks).1
  | .saveV2 u now toks => (saveUserGoogleTokens_v2 now st u toks).1
  | .refresh u now resp => (refreshUserGoogleTokens now resp st u).1
  | .refreshV2 u now resp => (refreshUserGoogleTokens_v2 now resp st u).1
  | .getValid u now resp => (getValidGoogleClient now resp st u).1
  | .getValidV2 u now resp => (getValidGoogleClient_v2 now resp st u).1
  | .revoke _ _ => st
  | .delete u => (Storage.deleteGoogleTokens st u).1

/-- Sequential execution of a list of manager operations. -/
def applyOps (st : MemStore) (ops : List ManagerOp) : MemStore :=
  ops.foldl applyOp st

/-- Every single manager operation preserves well-formedness and the
at-most-one-credential-per-user invariant. -/
theorem applyOp_preserves (st : MemStore) (op : ManagerOp)
    (hwf : st.WF) (hone : AtMostOnePerUser st) :
    (applyOp st op).WF ∧ AtMostOnePerUser (applyOp st op) := by
  cases op with
  | save u now toks => exact saveUserGoogleTokens_preserves now st u toks hwf hone
  | saveV2 u now toks => exact saveUserGoogleTokens_v2_preserves now st u toks hwf hone
  | refresh u now resp => exact refreshUserGoogleTokens_preserves now resp st u hwf hone
  | refreshV2 u now resp => exact refreshUserGoogleTokens_v2_preserves now resp st u hwf hone
  | getValid u now resp => exact getValidGoogleClient_preserves now resp st u hwf hone
  | getValidV2 u now resp => exact getValidGoogleClient_v2_preserves now resp st u hwf hone
  | revoke u f => exact ⟨hwf, hone⟩
  | delete u => exact deleteGoogleTokens_preserves_inv st u hwf hone

/-- C9: starting from a well-formed store with at most one credential per
user, every sequential execution of manager operations — saves of either
revision (the upsert updates in place when an entry exists), refreshes,
`getValidGoogleClient`, revokes and deletes — preserves the invariant that
at most one StoredCredential exists per user. -/
theorem manager_preserves_atMostOnePerUser (st : MemStore) (ops : List ManagerOp)
    (hwf : st.WF) (hone : AtMostOnePerUser st) :
    (applyOps st ops).WF ∧ AtMostOnePerUser (applyOps st ops) := by
  induction ops generalizing st with
  | nil => exact ⟨hwf, hone⟩
  | cons op ops ih =>
    have h1 := applyOp_preserves st op hwf hone
    exact ih (applyOp st op) h1.1 h1.2

/-- A concrete operation sequence: two authorizations for the same user (the
second must update in place), a refresh, a credential fetch, a revoke
against an unreachable provider, and the disconnect deletion. -/
def opsWitness : List ManagerOp :=
  [ .save "u1" 0 { access_token := some "A1", refresh_token := some "R1",
                   expiry_date := some 1000, scope := none },
    .save "u1" 10 { access_token := some "A2", refresh_token := none,
                    expiry_date := none, scope := none },
    .refresh "u1" 20 (.ok { token := some "A3", expires_in := some 3600,
                            refresh_token := none }),
    .getValid "u1" 30 (.ok { token := some "A4", expires_in := some 3600,
                             refresh_token := none }),
    .revoke "u1" (fun _ => .error "provider unreachable"),
    .delete "u1" ]

/-- Witness for the C9 theorem on a concrete operation sequence from the
empty store. -/
theorem manager_preserves_atMostOnePerUser_witness :
    stEmpty.WF ∧ AtMostOnePerUser stEmpty ∧
      ((applyOps stEmpty opsWitness).WF ∧
        AtMostOnePerUser (applyOps stEmpty opsWitness)) :=
  ⟨by decide, by decide,
   manager_preserves_atMostOnePerUser stEmpty opsWitness (by decide) (by decide)⟩

end WitB
